import Mathlib

/-!
Shallow embedding of the city-resolution core of `weather_in.py` (the
`get_city_id` function and its helpers), together with theorems checking
the specification's claims about it.

Modelling conventions:
* Python strings are Lean `String`s; `str.lower()` is `str_lower`, which
  maps `Char.toLower` over the character data (ASCII case folding, the
  only case folding exercised by the catalogs and the spec).
* The JSON catalogs `cities.json` and `country_codes.json` are not part
  of the source tree; the resolver is therefore parametrised by the
  in-memory catalog (`List CityRecord`) and the country-code table.
  A Python `dict` is modelled as an association list in insertion order;
  building a dict from pairs lets a later binding override an earlier
  one, so key lookup takes the LAST matching binding and key membership
  is any-match.
* The interactive `click.prompt` call is modelled by passing the string
  the operator would type (`promptReply`) as a parameter; the branch
  structure determines whether it is consulted.
* `get_city_id` returns `Option (String ⊕ Int)`: `some (Sum.inl msg)`
  models returning the error string `msg`, `some (Sum.inr n)` models
  `return int(city_id)` with `city_id = n`, and `none` models the
  branches where Python would raise (`city_id` unbound at the final
  return, indexing an empty list, or a `KeyError` on the dict lookup).
  Totality of the resolver is then a theorem, not a modelling artefact.
-/

/-- One record of `cities.json`: a city name, its ISO-3166-1 alpha-2
country code, and its numeric id (`_city['name']`, `_city['country']`,
`_city['id']`). -/
structure CityRecord where
  name : String
  country : String
  id : Int
deriving Repr, DecidableEq

/-- The deserialised `country_codes.json`: a mapping with 2-letter codes
as keys and full country names as values, in insertion order. -/
abbrev CountryCodeTable := List (String × String)

/-- Python `s.lower()` restricted to ASCII case folding: lowercase every
character of the string. -/
def str_lower (s : String) : String := ⟨s.data.map Char.toLower⟩

/-- Model of `reverse_dict = lambda d: dict(map(reversed, d.items()))` — swap every
key/value pair (later duplicate keys override earlier ones, see
`dictGet?`). -/
def reverse_dict (d : CountryCodeTable) : CountryCodeTable :=
  d.map (fun p => (p.2, p.1))

/-- Model of `lower_dict = lambda d: {k.lower(): v.lower() for k, v in d.items()}`. -/
def lower_dict (d : CountryCodeTable) : CountryCodeTable :=
  d.map (fun p => (str_lower p.1, str_lower p.2))

/-- Python `k in d` for the modelled dict: some binding has key `k`. -/
def dictContains (d : CountryCodeTable) (k : String) : Bool :=
  d.any (fun p => p.1 == k)

/-- Python `d[k]` for the modelled dict, as an `Option`: the value of the
last binding with key `k` (later bindings override earlier ones when a
dict is built from pairs), `none` when the key is absent (`KeyError`). -/
def dictGet? (d : CountryCodeTable) (k : String) : Option String :=
  (d.reverse.find? (fun p => p.1 == k)).map Prod.snd

/-- The list comprehension
`[_city for _city in cities if _city['name'].lower() == city.lower()]`
(also recomputed by the `get_city_id_by_name` lambda). -/
def matchesFor (cities : List CityRecord) (city : String) : List CityRecord :=
  cities.filter (fun c => str_lower c.name == str_lower city)

/-- Model of `found_countries = [_city['country'] for _city in found_cities]`. -/
def countriesOf (cities : List CityRecord) (city : String) : List String :=
  (matchesFor cities city).map (fun c => c.country)

/-- The final `for _city in cities: ... break / else` loop of
`get_city_id`: the first record of the WHOLE catalog whose name matches
the queried city case-insensitively and whose country code, lowercased,
equals `country_code`. -/
def scanForCityInCountry (cities : List CityRecord) (city country_code : String) :
    Option CityRecord :=
  cities.find? (fun c =>
    str_lower c.name == str_lower city && str_lower c.country == country_code)

/-- The disambiguation branch of `get_city_id`, entered after
`click.prompt` returned `country`.  `country_codes` is the reversed table
when `len(country) > 2` and the table itself otherwise;
`country_codes_lowered = lower_dict(country_codes)` is inlined at both
use sites.  The `none` arm of the match models the `KeyError` Python
would raise on `country_codes_lowered[country.lower()]` were the key
absent (it never is: membership was just checked). -/
def resolveWithCountry (cities : List CityRecord) (table : CountryCodeTable)
    (city country : String) : Option (String ⊕ Int) :=
  if dictContains
      (lower_dict (if 2 < country.length then reverse_dict table else table))
      (str_lower country) = false then
    some (Sum.inl ("\nError: Country " ++ country ++ " not found!\n" ++
      "Please use country names or 2-letter codes " ++
      "as defined in the ISO-3166-1 standard.\n"))
  else
    match (if 2 < country.length then
        dictGet? (lower_dict (reverse_dict table)) (str_lower country)
      else some (str_lower country)) with
    | none => none
    | some country_code =>
      match scanForCityInCountry cities city country_code with
      | some c => some (Sum.inr c.id)
      | none =>
        some (Sum.inl ("\nError: The city of " ++ city ++ " has not been found" ++
          "in the country of " ++ country ++ "!\n"))

/-- Embedding of `get_city_id(city)` from `weather_in.py`, parametrised by the memoised
catalogs and by the operator's prompt reply.  Mirrors the
`if / elif len(found_cities) == 1 / elif len(found_cities) > 1` chain and,
inside it, the `if len(set(found_countries)) == 1 / elif ... > 1` chain;
a fall-through past both `elif`s (impossible: a nonempty list has a
nonempty set of elements) would leave `city_id` unbound at the final
`return int(city_id)`, modelled by `none`.  `int(city_id)` is the
identity on the integer ids of the catalog. -/
def get_city_id (cities : List CityRecord) (table : CountryCodeTable)
    (promptReply : String) (city : String) : Option (String ⊕ Int) :=
  if (matchesFor cities city).length < 1 then
    some (Sum.inl ("\nError: the city of " ++ city ++ " has not been found!\n"))
  else if (matchesFor cities city).length = 1 then
    match (matchesFor cities city).map (fun c => c.id) with
    | [] => none
    | i :: _ => some (Sum.inr i)
  else if 1 < (matchesFor cities city).length then
    if (countriesOf cities city).dedup.length = 1 then
      match (matchesFor cities city).map (fun c => c.id) with
      | [] => none
      | i :: _ => some (Sum.inr i)
    else if 1 < (countriesOf cities city).dedup.length then
      resolveWithCountry cities table city promptReply
    else none
  else none

/-- Model of `functools.lru_cache(maxsize=1)` applied to a nullary loader
(`get_cities` / `get_country_codes`): given the cache cell, return the
cached value when present, otherwise compute, and return the value paired
with the updated cell. -/
def lru_cache1 {α : Type} (compute : Unit → α) : Option α → α × Option α
  | some v => (v, some v)
  | none => (compute (), some (compute ()))

/-- Sample of the external `cities.json` catalog, with the ids the
repository's tests record for Sofia, Paris (France) and London (United
Kingdom), a second Paris and London abroad, and a duplicated
name+country pair. -/
def demoCities : List CityRecord :=
  [⟨"Sofia", "BG", 727011⟩,
   ⟨"Paris", "FR", 2968815⟩,
   ⟨"Paris", "US", 4717560⟩,
   ⟨"London", "GB", 2643743⟩,
   ⟨"London", "CA", 6058560⟩,
   ⟨"Springfield", "US", 4406831⟩,
   ⟨"Springfield", "US", 4951788⟩]

/-- Sample of the external `country_codes.json` table (2-letter code to
full name, per ISO-3166-1). -/
def demoCountryCodes : CountryCodeTable :=
  [("BG", "Bulgaria"), ("FR", "France"), ("US", "United States"),
   ("GB", "United Kingdom"), ("CA", "Canada")]

/-- Spec-side description of the disambiguation lookup when the supplied
string is presumed a 2-letter code: look it up, lowercased, directly in
the (lowercased) code-to-name table, then scan the catalog with the
lowercased string itself as the country code. -/
def lookupAsCode (cities : List CityRecord) (table : CountryCodeTable)
    (city country : String) : Option (String ⊕ Int) :=
  if dictContains (lower_dict table) (str_lower country) = false then
    some (Sum.inl ("\nError: Country " ++ country ++ " not found!\n" ++
      "Please use country names or 2-letter codes " ++
      "as defined in the ISO-3166-1 standard.\n"))
  else
    match scanForCityInCountry cities city (str_lower country) with
    | some c => some (Sum.inr c.id)
    | none =>
      some (Sum.inl ("\nError: The city of " ++ city ++ " has not been found" ++
        "in the country of " ++ country ++ "!\n"))

/-- Spec-side description of the disambiguation lookup when the supplied
string is presumed a full country name: look it up, lowercased, in the
inverted (then lowercased) table and scan the catalog with the code it
maps to. -/
def lookupAsName (cities : List CityRecord) (table : CountryCodeTable)
    (city country : String) : Option (String ⊕ Int) :=
  if dictContains (lower_dict (reverse_dict table)) (str_lower country) = false then
    some (Sum.inl ("\nError: Country " ++ country ++ " not found!\n" ++
      "Please use country names or 2-letter codes " ++
      "as defined in the ISO-3166-1 standard.\n"))
  else
    match dictGet? (lower_dict (reverse_dict table)) (str_lower country) with
    | none => none
    | some code =>
      match scanForCityInCountry cities city code with
      | some c => some (Sum.inr c.id)
      | none =>
        some (Sum.inl ("\nError: The city of " ++ city ++ " has not been found" ++
          "in the country of " ++ country ++ "!\n"))

/-! ## Helper lemmas -/

/-- Matching is driven by the lowercased input only: two inputs with the
same lowercasing select the same records. -/
theorem matchesFor_congr (cities : List CityRecord) {t t' : String}
    (h : str_lower t' = str_lower t) : matchesFor cities t' = matchesFor cities t := by
  unfold matchesFor
  simp only [h]

theorem countriesOf_congr (cities : List CityRecord) {t t' : String}
    (h : str_lower t' = str_lower t) : countriesOf cities t' = countriesOf cities t := by
  unfold countriesOf
  rw [matchesFor_congr cities h]

/-- Key membership and key lookup agree on the modelled dict. -/
theorem dictContains_iff_isSome (d : CountryCodeTable) (k : String) :
    dictContains d k = true ↔ (dictGet? d k).isSome = true := by
  unfold dictContains dictGet?
  rw [List.any_eq_true]
  cases hf : d.reverse.find? (fun p => p.1 == k) with
  | none =>
    simp only [Option.map_none', Option.isSome_none, Bool.false_eq_true, iff_false]
    rintro ⟨x, hx, hpx⟩
    have := List.find?_eq_none.mp hf x (List.mem_reverse.mpr hx)
    exact this hpx
  | some q =>
    simp only [Option.map_some', Option.isSome_some, iff_true]
    have hq := List.find?_some hf
    exact ⟨q, List.mem_reverse.mp (List.mem_of_find?_eq_some hf), hq⟩

theorem dictContains_of_get? {d : CountryCodeTable} {k v : String}
    (h : dictGet? d k = some v) : dictContains d k = true := by
  rw [dictContains_iff_isSome, h]
  rfl

theorem dictGet?_isSome_of_contains {d : CountryCodeTable} {k : String}
    (h : dictContains d k = true) : ∃ v, dictGet? d k = some v := by
  rw [dictContains_iff_isSome] at h
  exact Option.isSome_iff_exists.mp h

/-- More than one distinct country among the matches forces more than one
match. -/
theorem one_lt_matches_of_dedup (cities : List CityRecord) (t : String)
    (h : 1 < (countriesOf cities t).dedup.length) :
    1 < (matchesFor cities t).length := by
  have hs : (countriesOf cities t).dedup.length ≤ (countriesOf cities t).length :=
    (List.dedup_sublist _).length_le
  have hl : (countriesOf cities t).length = (matchesFor cities t).length :=
    List.length_map _ _
  omega

/-- When the matches span more than one country, `get_city_id` reaches the
disambiguation branch and equals `resolveWithCountry` at the prompt
reply. -/
theorem get_city_id_prompt_branch (cities : List CityRecord)
    (table : CountryCodeTable) (p t : String)
    (h : 1 < (countriesOf cities t).dedup.length) :
    get_city_id cities table p t = resolveWithCountry cities table t p := by
  have h2 : 1 < (matchesFor cities t).length := one_lt_matches_of_dedup cities t h
  unfold get_city_id
  rw [if_neg (by omega), if_neg (by omega), if_pos h2, if_neg (by omega), if_pos h]

/-- When at most one distinct country occurs among the matches, the prompt
reply is never consulted. -/
theorem get_city_id_prompt_irrelevant (cities : List CityRecord)
    (table : CountryCodeTable) (p q t : String)
    (h : (countriesOf cities t).dedup.length ≤ 1) :
    get_city_id cities table p t = get_city_id cities table q t := by
  have h' : ¬ 1 < (countriesOf cities t).dedup.length := by omega
  unfold get_city_id
  rw [if_neg h', if_neg h']

/-- Whenever all matches agree on the country (in particular when there is
a single match), the resolver returns the id of the first match in catalog
order. -/
theorem get_city_id_resolved_first (cities : List CityRecord)
    (table : CountryCodeTable) (p t : String) (r : CityRecord)
    (hh : (matchesFor cities t).head? = some r)
    (hc : (countriesOf cities t).dedup.length = 1) :
    get_city_id cities table p t = some (Sum.inr r.id) := by
  cases hm : matchesFor cities t with
  | nil => rw [hm] at hh; cases hh
  | cons a rest =>
    rw [hm, List.head?_cons] at hh
    have ha : a = r := Option.some.inj hh
    subst ha
    cases rest with
    | nil =>
      unfold get_city_id
      rw [hm]
      norm_num
    | cons b rs =>
      unfold get_city_id
      rw [hm]
      rw [if_neg (by simp), if_neg (by simp), if_pos (by simp), if_pos hc]
      simp

/-! ## Claims -/

/-- Claim C1: for every city name that appears in the catalog under
exactly one country (the matches are nonempty, with first record `r`, and
share a single country code), `get_city_id` returns the id of that
record for every casing of the input. -/
theorem c1_unique_country_resolves_case_insensitively
    (cities : List CityRecord) (table : CountryCodeTable) (p t : String)
    (r : CityRecord)
    (hh : (matchesFor cities t).head? = some r)
    (hc : (countriesOf cities t).dedup.length = 1) :
    ∀ t', str_lower t' = str_lower t →
      get_city_id cities table p t' = some (Sum.inr r.id) := by
  intro t' ht
  exact get_city_id_resolved_first cities table p t' r
    (by rw [matchesFor_congr cities ht]; exact hh)
    (by rw [countriesOf_congr cities ht]; exact hc)

theorem c1_witness :
    (matchesFor demoCities "Sofia").head? = some ⟨"Sofia", "BG", 727011⟩ ∧
    (countriesOf demoCities "Sofia").dedup.length = 1 ∧
    get_city_id demoCities demoCountryCodes "" "Sofia" = some (Sum.inr 727011) ∧
    get_city_id demoCities demoCountryCodes "" "sofia" = some (Sum.inr 727011) ∧
    get_city_id demoCities demoCountryCodes "" "sOfIa" = some (Sum.inr 727011) :=
  ⟨by decide, by decide,
   c1_unique_country_resolves_case_insensitively demoCities demoCountryCodes ""
     "Sofia" ⟨"Sofia", "BG", 727011⟩ (by decide) (by decide) "Sofia" (by decide),
   c1_unique_country_resolves_case_insensitively demoCities demoCountryCodes ""
     "Sofia" ⟨"Sofia", "BG", 727011⟩ (by decide) (by decide) "sofia" (by decide),
   c1_unique_country_resolves_case_insensitively demoCities demoCountryCodes ""
     "Sofia" ⟨"Sofia", "BG", 727011⟩ (by decide) (by decide) "sOfIa" (by decide)⟩

/-- Claim C4: for every city name with no case-insensitive match in the
catalog, `get_city_id` returns the not-found error whose message embeds
the input string exactly as supplied, un-lowercased. -/
theorem c4_not_found_carries_original_input
    (cities : List CityRecord) (table : CountryCodeTable) (p t : String)
    (h : matchesFor cities t = []) :
    get_city_id cities table p t =
      some (Sum.inl ("\nError: the city of " ++ t ++ " has not been found!\n")) := by
  unfold get_city_id
  rw [h]
  norm_num

theorem c4_witness :
    matchesFor demoCities "LiVaRpOl" = [] ∧
    get_city_id demoCities demoCountryCodes "" "LiVaRpOl" =
      some (Sum.inl "\nError: the city of LiVaRpOl has not been found!\n") :=
  ⟨by decide,
   c4_not_found_carries_original_input demoCities demoCountryCodes "" "LiVaRpOl"
     (by decide)⟩

/-- Claim C6: when the city name matches several catalog records that all
share one country code, `get_city_id` returns the id of the first match
in catalog order, and the prompt reply is never consulted (the result is
the same for any two replies `p`, `p'`). -/
theorem c6_spurious_ambiguity_first_match_no_prompt
    (cities : List CityRecord) (table : CountryCodeTable) (p p' t : String)
    (r : CityRecord)
    (hlen : 1 < (matchesFor cities t).length)
    (hc : (countriesOf cities t).dedup.length = 1)
    (hh : (matchesFor cities t).head? = some r) :
    get_city_id cities table p t = some (Sum.inr r.id) ∧
    get_city_id cities table p t = get_city_id cities table p' t := by
  refine ⟨get_city_id_resolved_first cities table p t r hh hc, ?_⟩
  exact get_city_id_prompt_irrelevant cities table p p' t (by omega)

theorem c6_witness :
    1 < (matchesFor demoCities "Springfield").length ∧
    (countriesOf demoCities "Springfield").dedup.length = 1 ∧
    get_city_id demoCities demoCountryCodes "zz" "Springfield" =
      some (Sum.inr 4406831) ∧
    get_city_id demoCities demoCountryCodes "zz" "Springfield" =
      get_city_id demoCities demoCountryCodes "FR" "Springfield" :=
  ⟨by decide, by decide,
   (c6_spurious_ambiguity_first_match_no_prompt demoCities demoCountryCodes
     "zz" "FR" "Springfield" ⟨"Springfield", "US", 4406831⟩
     (by decide) (by decide) (by decide)).1,
   (c6_spurious_ambiguity_first_match_no_prompt demoCities demoCountryCodes
     "zz" "FR" "Springfield" ⟨"Springfield", "US", 4406831⟩
     (by decide) (by decide) (by decide)).2⟩

/-- Claim C5: when disambiguation is required and the supplied country
string matches, case-insensitively, neither a known 2-letter code nor a
known full country name, `get_city_id` returns the country-not-found
error carrying the literal supplied string. -/
theorem c5_unrecognized_country_literal
    (cities : List CityRecord) (table : CountryCodeTable) (p t : String)
    (hamb : 1 < (countriesOf cities t).dedup.length)
    (hcode : dictContains (lower_dict table) (str_lower p) = false)
    (hname : dictContains (lower_dict (reverse_dict table)) (str_lower p) = false) :
    get_city_id cities table p t =
      some (Sum.inl ("\nError: Country " ++ p ++ " not found!\n" ++
        "Please use country names or 2-letter codes " ++
        "as defined in the ISO-3166-1 standard.\n")) := by
  rw [get_city_id_prompt_branch cities table p t hamb]
  unfold resolveWithCountry
  by_cases hl : 2 < p.length
  · rw [if_pos hl, if_pos hname]
  · rw [if_neg hl, if_pos hcode]

theorem c5_witness :
    1 < (countriesOf demoCities "London").dedup.length ∧
    dictContains (lower_dict demoCountryCodes) (str_lower "1234567") = false ∧
    dictContains (lower_dict (reverse_dict demoCountryCodes))
      (str_lower "1234567") = false ∧
    get_city_id demoCities demoCountryCodes "1234567" "London" =
      some (Sum.inl ("\nError: Country 1234567 not found!\n" ++
        "Please use country names or 2-letter codes " ++
        "as defined in the ISO-3166-1 standard.\n")) :=
  ⟨by decide, by decide, by decide,
   c5_unrecognized_country_literal demoCities demoCountryCodes "1234567" "London"
     (by decide) (by decide) (by decide)⟩

/-- Claim C2: for a city present under multiple countries, supplying the
matching country as its full name, the lowercase of that name, or its
2-letter code in either casing all yield the same resolved id.
`n1`, `n2` are the two full-name forms (length above the 2-character
threshold), `c1`, `c2` the two code forms; the name table maps the name
to the lowercased code, the code table contains the lowercased code, and
the catalog scan at that code finds record `r`. -/
theorem c2_country_name_and_code_forms_agree
    (cities : List CityRecord) (table : CountryCodeTable)
    (t n1 n2 c1 c2 : String) (r : CityRecord)
    (hamb : 1 < (countriesOf cities t).dedup.length)
    (hn1 : 2 < n1.length) (hn2 : 2 < n2.length)
    (hc1 : c1.length ≤ 2) (hc2 : c2.length ≤ 2)
    (hnl : str_lower n2 = str_lower n1)
    (hcl : str_lower c2 = str_lower c1)
    (hlookup : dictGet? (lower_dict (reverse_dict table)) (str_lower n1) =
      some (str_lower c1))
    (hmem : dictContains (lower_dict table) (str_lower c1) = true)
    (hscan : scanForCityInCountry cities t (str_lower c1) = some r) :
    get_city_id cities table n1 t = some (Sum.inr r.id) ∧
    get_city_id cities table n2 t = some (Sum.inr r.id) ∧
    get_city_id cities table c1 t = some (Sum.inr r.id) ∧
    get_city_id cities table c2 t = some (Sum.inr r.id) := by
  have name_case : ∀ n : String, 2 < n.length → str_lower n = str_lower n1 →
      get_city_id cities table n t = some (Sum.inr r.id) := by
    intro n hn hsl
    rw [get_city_id_prompt_branch cities table n t hamb]
    unfold resolveWithCountry
    rw [if_pos hn, if_pos hn, hsl]
    have hcont : dictContains (lower_dict (reverse_dict table)) (str_lower n1) =
        true := dictContains_of_get? hlookup
    rw [if_neg (by rw [hcont]; exact fun h => nomatch h), hlookup]
    simp [hscan]
  have code_case : ∀ c : String, c.length ≤ 2 → str_lower c = str_lower c1 →
      get_city_id cities table c t = some (Sum.inr r.id) := by
    intro c hc hsl
    rw [get_city_id_prompt_branch cities table c t hamb]
    unfold resolveWithCountry
    rw [if_neg (show ¬ 2 < c.length by omega),
      if_neg (show ¬ 2 < c.length by omega), hsl]
    rw [if_neg (by rw [hmem]; exact fun h => nomatch h)]
    simp [hscan]
  exact ⟨name_case n1 hn1 rfl, name_case n2 hn2 hnl,
         code_case c1 hc1 rfl, code_case c2 hc2 hcl⟩

theorem c2_witness :
    get_city_id demoCities demoCountryCodes "France" "Paris" =
      some (Sum.inr 2968815) ∧
    get_city_id demoCities demoCountryCodes "france" "Paris" =
      some (Sum.inr 2968815) ∧
    get_city_id demoCities demoCountryCodes "FR" "Paris" =
      some (Sum.inr 2968815) ∧
    get_city_id demoCities demoCountryCodes "fr" "Paris" =
      some (Sum.inr 2968815) :=
  c2_country_name_and_code_forms_agree demoCities demoCountryCodes
    "Paris" "France" "france" "FR" "fr" ⟨"Paris", "FR", 2968815⟩
    (by decide) (by decide) (by decide) (by decide) (by decide)
    (by decide) (by decide) (by decide) (by decide) (by decide)

/-- Claim C7: once disambiguation is required, the code-versus-name
classification of the prompted string is decided solely by the length
threshold — every string of length at most 2 (however malformed) is
treated as a code attempt, every longer string as a full-name attempt,
with no format validation. -/
theorem c7_length_threshold_classification
    (cities : List CityRecord) (table : CountryCodeTable) (p t : String)
    (hamb : 1 < (countriesOf cities t).dedup.length) :
    (p.length ≤ 2 →
      get_city_id cities table p t = lookupAsCode cities table t p) ∧
    (2 < p.length →
      get_city_id cities table p t = lookupAsName cities table t p) := by
  constructor
  · intro hle
    have hl : ¬ 2 < p.length := by omega
    rw [get_city_id_prompt_branch cities table p t hamb]
    unfold resolveWithCountry lookupAsCode
    rw [if_neg hl, if_neg hl]
  · intro hl
    rw [get_city_id_prompt_branch cities table p t hamb]
    unfold resolveWithCountry lookupAsName
    rw [if_pos hl, if_pos hl]

theorem c7_witness :
    1 < (countriesOf demoCities "London").dedup.length ∧
    get_city_id demoCities demoCountryCodes "x" "London" =
      lookupAsCode demoCities demoCountryCodes "London" "x" ∧
    get_city_id demoCities demoCountryCodes "xyz" "London" =
      lookupAsName demoCities demoCountryCodes "London" "xyz" :=
  ⟨by decide,
   (c7_length_threshold_classification demoCities demoCountryCodes "x" "London"
     (by decide)).1 (by decide),
   (c7_length_threshold_classification demoCities demoCountryCodes "xyz" "London"
     (by decide)).2 (by decide)⟩

/-- Claim C3 fails as stated: at the concrete input `"Paris"` with
prompted country `"Bulgaria"`, the code produces the message with no
space between `found` and `in` — `"... has not been foundin the country
of ..."` — not the claimed `"... has not been found in the country of
..."` structure (the repository's own tests expect the space-less
message). -/
theorem c3_counterexample_missing_space :
    get_city_id demoCities demoCountryCodes "Bulgaria" "Paris" =
      some (Sum.inl
        "\nError: The city of Paris has not been foundin the country of Bulgaria!\n") ∧
    get_city_id demoCities demoCountryCodes "Bulgaria" "Paris" ≠
      some (Sum.inl
        "\nError: The city of Paris has not been found in the country of Bulgaria!\n") :=
  ⟨by decide, by decide⟩

/-- Claim C3 (amended): when disambiguation was required, the supplied
country is recognized (the lowered table of the length-selected direction
contains it, resolving to `code`) and no record pairs the queried city
with `code`, `get_city_id` returns the failure carrying both the city
name and the originally supplied country string, with the message
`"\nError: The city of {city} has not been foundin the country of
{supplied}!\n"` — the space the claim puts between `found` and `in` is
absent. -/
theorem c3_amended_city_not_in_country
    (cities : List CityRecord) (table : CountryCodeTable) (p t code : String)
    (hamb : 1 < (countriesOf cities t).dedup.length)
    (hcont : dictContains
      (lower_dict (if 2 < p.length then reverse_dict table else table))
      (str_lower p) = true)
    (hcode : (if 2 < p.length then
        dictGet? (lower_dict (reverse_dict table)) (str_lower p)
      else some (str_lower p)) = some code)
    (hscan : scanForCityInCountry cities t code = none) :
    get_city_id cities table p t =
      some (Sum.inl ("\nError: The city of " ++ t ++ " has not been found" ++
        "in the country of " ++ p ++ "!\n")) := by
  rw [get_city_id_prompt_branch cities table p t hamb]
  unfold resolveWithCountry
  rw [if_neg (by rw [hcont]; exact fun h => nomatch h), hcode]
  simp [hscan]

theorem c3_amended_witness :
    1 < (countriesOf demoCities "Paris").dedup.length ∧
    dictGet? (lower_dict (reverse_dict demoCountryCodes)) (str_lower "Bulgaria") =
      some "bg" ∧
    scanForCityInCountry demoCities "Paris" "bg" = none ∧
    get_city_id demoCities demoCountryCodes "Bulgaria" "Paris" =
      some (Sum.inl ("\nError: The city of Paris has not been found" ++
        "in the country of Bulgaria!\n")) :=
  ⟨by decide, by decide, by decide,
   c3_amended_city_not_in_country demoCities demoCountryCodes "Bulgaria" "Paris"
     "bg" (by decide) (by decide) (by decide) (by decide)⟩

/-- Case analysis of the disambiguation branch: the country is
unrecognized, or recognized but pairing no record with the city, or it
resolves to a catalog record whose name matches the query. -/
theorem resolveWithCountry_classify (cities : List CityRecord)
    (table : CountryCodeTable) (t p : String) :
    resolveWithCountry cities table t p =
      some (Sum.inl ("\nError: Country " ++ p ++ " not found!\n" ++
        "Please use country names or 2-letter codes " ++
        "as defined in the ISO-3166-1 standard.\n")) ∨
    resolveWithCountry cities table t p =
      some (Sum.inl ("\nError: The city of " ++ t ++ " has not been found" ++
        "in the country of " ++ p ++ "!\n")) ∨
    ∃ r, r ∈ cities ∧ str_lower r.name = str_lower t ∧
      resolveWithCountry cities table t p = some (Sum.inr r.id) := by
  unfold resolveWithCountry
  by_cases hcont : dictContains
      (lower_dict (if 2 < p.length then reverse_dict table else table))
      (str_lower p) = false
  · left
    rw [if_pos hcont]
  · rw [if_neg hcont]
    have hcont' : dictContains
        (lower_dict (if 2 < p.length then reverse_dict table else table))
        (str_lower p) = true := by
      cases h : dictContains
          (lower_dict (if 2 < p.length then reverse_dict table else table))
          (str_lower p) with
      | false => exact absurd h hcont
      | true => rfl
    obtain ⟨code, hcode⟩ : ∃ code, (if 2 < p.length then
        dictGet? (lower_dict (reverse_dict table)) (str_lower p)
      else some (str_lower p)) = some code := by
      by_cases hl : 2 < p.length
      · rw [if_pos hl]
        rw [if_pos hl] at hcont'
        exact dictGet?_isSome_of_contains hcont'
      · exact ⟨str_lower p, if_neg hl⟩
    rw [hcode]
    cases hscan : scanForCityInCountry cities t code with
    | none =>
      right; left
      simp [hscan]
    | some c =>
      right; right
      have hscan' : cities.find? (fun c =>
          str_lower c.name == str_lower t && str_lower c.country == code) =
          some c := hscan
      have hp := List.find?_some hscan'
      rw [Bool.and_eq_true] at hp
      exact ⟨c, List.mem_of_find?_eq_some hscan', eq_of_beq hp.1, by simp [hscan]⟩

/-- Full classification of `get_city_id`: every run lands in exactly one
of the four terminal outcomes — the three error strings or the id of a
catalog record whose name matches the query — and never in the `none`
(fault) state. -/
theorem get_city_id_classify (cities : List CityRecord)
    (table : CountryCodeTable) (p t : String) :
    get_city_id cities table p t =
      some (Sum.inl ("\nError: the city of " ++ t ++ " has not been found!\n")) ∨
    get_city_id cities table p t =
      some (Sum.inl ("\nError: Country " ++ p ++ " not found!\n" ++
        "Please use country names or 2-letter codes " ++
        "as defined in the ISO-3166-1 standard.\n")) ∨
    get_city_id cities table p t =
      some (Sum.inl ("\nError: The city of " ++ t ++ " has not been found" ++
        "in the country of " ++ p ++ "!\n")) ∨
    ∃ r, r ∈ cities ∧ str_lower r.name = str_lower t ∧
      get_city_id cities table p t = some (Sum.inr r.id) := by
  cases hm : matchesFor cities t with
  | nil =>
    left
    unfold get_city_id
    rw [hm]
    norm_num
  | cons a rest =>
    have hma : a ∈ matchesFor cities t := by
      rw [hm]
      exact List.mem_cons_self a rest
    have hmem : a ∈ cities := (List.mem_filter.mp hma).1
    have hname : str_lower a.name = str_lower t :=
      eq_of_beq (List.mem_filter.mp hma).2
    cases rest with
    | nil =>
      right; right; right
      refine ⟨a, hmem, hname, ?_⟩
      exact get_city_id_resolved_first cities table p t a (by rw [hm]; rfl)
        (by unfold countriesOf; rw [hm]; simp)
    | cons b rs =>
      rcases Nat.lt_or_ge 1 (countriesOf cities t).dedup.length with hgt | hle
      · rw [get_city_id_prompt_branch cities table p t hgt]
        rcases resolveWithCountry_classify cities table t p with h | h | ⟨r, hr, hn, he⟩
        · right; left; exact h
        · right; right; left; exact h
        · right; right; right; exact ⟨r, hr, hn, he⟩
      · have hne : (countriesOf cities t).dedup ≠ [] := by
          intro h
          have : countriesOf cities t = [] := (List.dedup_eq_nil _).mp h
          unfold countriesOf at this
          rw [hm] at this
          exact absurd this (by simp)
        have h1 : (countriesOf cities t).dedup.length = 1 := by
          have := List.length_pos.mpr hne
          omega
        right; right; right
        exact ⟨a, hmem, hname,
          get_city_id_resolved_first cities table p t a (by rw [hm]; rfl) h1⟩

/-- Claim C8: for every catalog, table, city input and prompt reply, the
resolver terminates in one of the four typed outcomes — not-found,
country-not-recognized, city-not-in-country, or a resolved catalog id —
and never reaches a fault (`none`) state. -/
theorem c8_resolver_total_four_outcomes (cities : List CityRecord)
    (table : CountryCodeTable) (p t : String) :
    get_city_id cities table p t =
      some (Sum.inl ("\nError: the city of " ++ t ++ " has not been found!\n")) ∨
    get_city_id cities table p t =
      some (Sum.inl ("\nError: Country " ++ p ++ " not found!\n" ++
        "Please use country names or 2-letter codes " ++
        "as defined in the ISO-3166-1 standard.\n")) ∨
    get_city_id cities table p t =
      some (Sum.inl ("\nError: The city of " ++ t ++ " has not been found" ++
        "in the country of " ++ p ++ "!\n")) ∨
    ∃ r, r ∈ cities ∧ get_city_id cities table p t = some (Sum.inr r.id) := by
  rcases get_city_id_classify cities table p t with h | h | h | ⟨r, hr, _, he⟩
  · exact Or.inl h
  · exact Or.inr (Or.inl h)
  · exact Or.inr (Or.inr (Or.inl h))
  · exact Or.inr (Or.inr (Or.inr ⟨r, hr, he⟩))

/-- The not-found message decomposes as the `"\nError:"` marker followed
by a remainder. -/
theorem notFound_msg_split (t : String) :
    "\nError: the city of " ++ t ++ " has not been found!\n" =
      "\nError:" ++ (" the city of " ++ t ++ " has not been found!\n") := by
  simp only [← String.append_assoc]
  rw [show ("\nError:" ++ " the city of " : String) = "\nError: the city of " from
    by decide]

/-- The country-not-found message decomposes as the `"\nError:"` marker
followed by a remainder. -/
theorem countryNotFound_msg_split (p : String) :
    "\nError: Country " ++ p ++ " not found!\n" ++
      "Please use country names or 2-letter codes " ++
      "as defined in the ISO-3166-1 standard.\n" =
      "\nError:" ++ (" Country " ++ p ++ " not found!\n" ++
        "Please use country names or 2-letter codes " ++
        "as defined in the ISO-3166-1 standard.\n") := by
  simp only [← String.append_assoc]
  rw [show ("\nError:" ++ " Country " : String) = "\nError: Country " from by decide]

/-- The city-not-in-country message decomposes as the `"\nError:"` marker
followed by a remainder. -/
theorem cityNotInCountry_msg_split (t p : String) :
    "\nError: The city of " ++ t ++ " has not been found" ++
      "in the country of " ++ p ++ "!\n" =
      "\nError:" ++ (" The city of " ++ t ++ " has not been found" ++
        "in the country of " ++ p ++ "!\n") := by
  simp only [← String.append_assoc]
  rw [show ("\nError:" ++ " The city of " : String) = "\nError: The city of " from
    by decide]

/-- Claim C10: the two outcome kinds are distinguished by type at the
public interface — exactly the discrimination `weather_in` performs with
`type(city_id) is str`.  Every success is the integer id of a catalog
record whose name matches the query (the `Sum.inr` side, `int(city_id)`
being the identity on the catalog's integer ids), and every failure is a
string on the `Sum.inl` side, beginning with the `"\nError:"` marker; no
outcome is both. -/
theorem c10_failures_are_strings_successes_are_ints (cities : List CityRecord)
    (table : CountryCodeTable) (p t : String) :
    (∃ r, r ∈ cities ∧ str_lower r.name = str_lower t ∧
      get_city_id cities table p t = some (Sum.inr r.id)) ∨
    (∃ rest, get_city_id cities table p t = some (Sum.inl ("\nError:" ++ rest))) := by
  rcases get_city_id_classify cities table p t with h | h | h | hr
  · right
    exact ⟨" the city of " ++ t ++ " has not been found!\n",
      by rw [h, notFound_msg_split]⟩
  · right
    exact ⟨" Country " ++ p ++ " not found!\n" ++
        "Please use country names or 2-letter codes " ++
        "as defined in the ISO-3166-1 standard.\n",
      by rw [h, countryNotFound_msg_split]⟩
  · right
    exact ⟨" The city of " ++ t ++ " has not been found" ++
        "in the country of " ++ p ++ "!\n",
      by rw [h, cityNotInCountry_msg_split]⟩
  · left
    exact hr

/-- Claim C9: the catalog loader is memoized — a second call through the
`lru_cache`d loader returns the very structure the first call produced,
with the cache unchanged — and the resolver is deterministic given the
catalog, so resolving the same unambiguous city name again (with any
prompt replies, which are never consulted) yields the same result. -/
theorem c9_memoized_loader_idempotent_resolution
    (f : Unit → List CityRecord) (s0 : Option (List CityRecord))
    (table : CountryCodeTable) (p1 p2 t : String)
    (h : (countriesOf (lru_cache1 f s0).1 t).dedup.length ≤ 1) :
    (lru_cache1 f (lru_cache1 f s0).2).1 = (lru_cache1 f s0).1 ∧
    (lru_cache1 f (lru_cache1 f s0).2).2 = (lru_cache1 f s0).2 ∧
    get_city_id (lru_cache1 f (lru_cache1 f s0).2).1 table p1 t =
      get_city_id (lru_cache1 f s0).1 table p2 t := by
  have hmemo : lru_cache1 f (lru_cache1 f s0).2 = lru_cache1 f s0 := by
    cases s0 <;> rfl
  refine ⟨by rw [hmemo], by rw [hmemo], ?_⟩
  rw [hmemo]
  exact get_city_id_prompt_irrelevant (lru_cache1 f s0).1 table p1 p2 t h

theorem c9_witness :
    (countriesOf (lru_cache1 (fun _ => demoCities) none).1 "Sofia").dedup.length
      ≤ 1 ∧
    (lru_cache1 (fun _ => demoCities)
      ((lru_cache1 (fun _ => demoCities) none).2)).1 =
      (lru_cache1 (fun _ => demoCities) none).1 ∧
    (lru_cache1 (fun _ => demoCities)
      ((lru_cache1 (fun _ => demoCities) none).2)).2 =
      (lru_cache1 (fun _ => demoCities) none).2 ∧
    get_city_id (lru_cache1 (fun _ => demoCities)
        ((lru_cache1 (fun _ => demoCities) none).2)).1
      demoCountryCodes "first reply" "Sofia" =
      get_city_id (lru_cache1 (fun _ => demoCities) none).1
        demoCountryCodes "second reply" "Sofia" :=
  ⟨by decide,
   c9_memoized_loader_idempotent_resolution (fun _ => demoCities) none
     demoCountryCodes "first reply" "second reply" "Sofia" (by decide)⟩
